import Mathlib

/-!
Verification development for the order-tracking service
(`src/starter/backend/order_tracker.py`).

The `OrderTracker` class validates inputs and delegates persistence to a
storage capability exposing `save_order`, `get_order` and `get_all_orders`.
Each Python method is embedded as a pure function threading the storage
state explicitly: an operation returns `(result, state)` where a Python
`raise` becomes `Except.error` paired with the state at the raise point,
and a call to `storage.save_order` updates the state.

The Python code raises `ValueError` with distinct messages at each raise
site; the spec's error taxonomy (`DuplicateOrderError`, `InvalidQuantityError`,
`EmptyFieldError`, `InvalidStatusError`, `OrderNotFoundError`) maps
one-to-one onto those sites, so the embedding uses one `Err` constructor
per site. Python string truthiness is modelled by comparison with `""`
(the `None` argument used in some tests is likewise falsy and is subsumed
by `""`).
-/

namespace OrderTrackerSpec

/-- The order record: the five-field dict built by `add_order`
(order_tracker.py lines 42-48). `quantity` is a Python `int`, embedded
as `Int`. -/
structure Order where
  order_id : String
  item_name : String
  quantity : Int
  customer_id : String
  status : String
deriving Repr, DecidableEq

/-- The closed status enumeration appearing at order_tracker.py
lines 38, 65 and 85. -/
def validStatuses : List String := ["pending", "processing", "shipped", "delivered"]

/-- Modelled from the spec: the storage capability (its concrete
implementation, `in_memory_storage.py`, is not under src/; the spec
defines it as `save(id, record)`, `get(id) -> record|absent`,
`get_all() -> mapping id->record` with read-your-writes). It is modelled
as an insertion-ordered association list with the upsert semantics of a
Python dict: saving to an existing key replaces in place, saving to a new
key appends. -/
structure Storage where
  orders : List (String × Order)
deriving Repr, DecidableEq

/-- `get(id) -> record|absent`: first (and, keys being unique in a dict,
only) record stored under the key. -/
def Storage.get_order (σ : Storage) (order_id : String) : Option Order :=
  (σ.orders.find? (fun p => p.1 == order_id)).map Prod.snd

/-- `save(id, record)`: dict upsert — replace in place if the key is
present, append otherwise. -/
def Storage.save_order (σ : Storage) (order_id : String) (o : Order) : Storage :=
  if σ.orders.any (fun p => p.1 == order_id) then
    ⟨σ.orders.map (fun p => if p.1 == order_id then (order_id, o) else p)⟩
  else
    ⟨σ.orders ++ [(order_id, o)]⟩

/-- `get_all() -> mapping id->record`. -/
def Storage.get_all_orders (σ : Storage) : List (String × Order) :=
  σ.orders

/-- The storage a fresh process starts with. -/
def emptyStorage : Storage := ⟨[]⟩

/-- One constructor per raise site of order_tracker.py, named after the
spec's error taxonomy (section 7); the Python code raises `ValueError`
with a distinct message at each site. -/
inductive Err where
  | duplicateOrder (order_id : String)
  | invalidQuantity
  | emptyField (field : String)
  | invalidStatus
  | orderNotFound (order_id : String)
deriving Repr, DecidableEq

/-- `OrderTracker.add_order` (order_tracker.py lines 16-48): duplicate
check, quantity check, three emptiness checks, status-domain check, then
`save_order` of the five-field record with falsy status defaulted to
`"pending"`. -/
def add_order (σ : Storage) (order_id item_name : String) (quantity : Int)
    (customer_id status : String) : Except Err Unit × Storage :=
  if (σ.get_order order_id).isSome then
    (Except.error (Err.duplicateOrder order_id), σ)
  else if quantity ≤ 0 then
    (Except.error Err.invalidQuantity, σ)
  else if order_id = "" then
    (Except.error (Err.emptyField "order_id"), σ)
  else if item_name = "" then
    (Except.error (Err.emptyField "item_name"), σ)
  else if customer_id = "" then
    (Except.error (Err.emptyField "customer_id"), σ)
  else if status ≠ "" ∧ status ∉ validStatuses then
    (Except.error Err.invalidStatus, σ)
  else
    (Except.ok (), σ.save_order order_id
      { order_id := order_id, item_name := item_name, quantity := quantity,
        customer_id := customer_id,
        status := if status = "" then "pending" else status })

/-- `OrderTracker.get_order_by_id` (order_tracker.py lines 50-56):
emptiness check, then `storage.get_order`. -/
def get_order_by_id (σ : Storage) (order_id : String) :
    Except Err (Option Order) × Storage :=
  if order_id = "" then (Except.error (Err.emptyField "order_id"), σ)
  else (Except.ok (σ.get_order order_id), σ)

/-- `OrderTracker.update_order_status` (order_tracker.py lines 58-74):
emptiness check, status-domain check guarded by truthiness, then a lookup
through `get_order_by_id`; a missing order raises, an existing one has its
`status` field overwritten with `new_status` (no defaulting) and is saved
back under the same key. -/
def update_order_status (σ : Storage) (order_id new_status : String) :
    Except Err Unit × Storage :=
  if order_id = "" then (Except.error (Err.emptyField "order_id"), σ)
  else if new_status ≠ "" ∧ new_status ∉ validStatuses then
    (Except.error Err.invalidStatus, σ)
  else
    match (get_order_by_id σ order_id).1 with
    | Except.error e => (Except.error e, σ)
    | Except.ok none => (Except.error (Err.orderNotFound order_id), σ)
    | Except.ok (some order) =>
        (Except.ok (), σ.save_order order_id { order with status := new_status })

/-- `OrderTracker.list_all_orders` (order_tracker.py lines 76-77):
pass-through of `get_all_orders`. -/
def list_all_orders (σ : Storage) : List (String × Order) × Storage :=
  (σ.get_all_orders, σ)

/-- `OrderTracker.list_orders_by_status` (order_tracker.py lines 79-90):
emptiness check, status-domain check, then the list comprehension
filtering the values of `get_all_orders` on equal status. -/
def list_orders_by_status (σ : Storage) (status : String) :
    Except Err (List Order) × Storage :=
  if status = "" then (Except.error (Err.emptyField "status"), σ)
  else if status ∉ validStatuses then (Except.error Err.invalidStatus, σ)
  else
    (Except.ok ((σ.get_all_orders.map Prod.snd).filter (fun o => o.status == status)), σ)

/-- A mutating call into the tracker, for stating invariants over
arbitrary operation sequences (the read-only operations never change the
state, as proved separately). -/
inductive TrackerOp where
  | add (order_id item_name : String) (quantity : Int) (customer_id status : String)
  | update (order_id new_status : String)
deriving Repr, DecidableEq

/-- The storage state after one tracker call (discarding the result). -/
def applyOp (σ : Storage) : TrackerOp → Storage
  | TrackerOp.add oid iname q cid st => (add_order σ oid iname q cid st).2
  | TrackerOp.update oid st => (update_order_status σ oid st).2

/-- The storage state after a sequence of tracker calls. -/
def runOps (σ : Storage) (ops : List TrackerOp) : Storage :=
  ops.foldl applyOp σ

/-- Replacing the record under a present key makes it the one `find?`
returns for that key. -/
theorem find?_map_replace (l : List (String × Order)) (id : String) (o : Order)
    (h : l.any (fun p => p.1 == id) = true) :
    (l.map (fun p => if p.1 == id then (id, o) else p)).find?
      (fun p => p.1 == id) = some (id, o) := by
  induction l with
  | nil => simp at h
  | cons q l ih =>
    cases hq : (q.1 == id) with
    | true =>
      rw [List.map_cons, if_pos hq, List.find?_cons_of_pos _ (by simp)]
    | false =>
      simp only [List.any_cons, hq, Bool.false_or] at h
      rw [List.map_cons, if_neg (by simp [hq]),
        List.find?_cons_of_neg _ (by simp [hq])]
      exact ih h

/-- Appending a record under a fresh key makes it the one `find?` returns
for that key. -/
theorem find?_append_key (l : List (String × Order)) (id : String) (o : Order)
    (h : l.any (fun p => p.1 == id) = false) :
    (l ++ [(id, o)]).find? (fun p => p.1 == id) = some (id, o) := by
  induction l with
  | nil => simp [List.find?]
  | cons q l ih =>
    simp only [List.any_cons, Bool.or_eq_false_iff] at h
    obtain ⟨hq, hl⟩ := h
    rw [List.cons_append, List.find?_cons_of_neg _ (by simp [hq])]
    exact ih hl

/-- Replacing the record under one key leaves `find?` for a different key
unchanged. -/
theorem find?_map_replace_other (l : List (String × Order)) (id id' : String) (o : Order)
    (h : id' ≠ id) :
    (l.map (fun p => if p.1 == id then (id, o) else p)).find? (fun p => p.1 == id') =
      l.find? (fun p => p.1 == id') := by
  induction l with
  | nil => rfl
  | cons q l ih =>
    by_cases hq : (q.1 == id) = true
    · have hqid : q.1 = id := by simpa using hq
      have hne : (id == id') = false := by
        simp [beq_eq_false_iff_ne]
        exact fun he => h he.symm
      have hne' : (q.1 == id') = false := by rw [hqid]; exact hne
      simp only [List.map_cons, hq, if_true]
      rw [List.find?_cons_of_neg _ (by simp [hne]),
        List.find?_cons_of_neg _ (by simp [hne'])]
      exact ih
    · have hq' : (q.1 == id) = false := by
        cases hb : (q.1 == id) with
        | false => rfl
        | true => exact absurd hb hq
      simp only [List.map_cons, hq', Bool.false_eq_true, if_false]
      by_cases hq2 : (q.1 == id') = true
      · rw [List.find?_cons_of_pos _ (by simp [hq2]),
          List.find?_cons_of_pos _ (by simp [hq2])]
      · have hq2' : (q.1 == id') = false := by
          cases hb : (q.1 == id') with
          | false => rfl
          | true => exact absurd hb hq2
        rw [List.find?_cons_of_neg _ (by simp [hq2']),
          List.find?_cons_of_neg _ (by simp [hq2'])]
        exact ih

/-- Appending a record under one key leaves `find?` for a different key
unchanged. -/
theorem find?_append_other (l : List (String × Order)) (id id' : String) (o : Order)
    (h : id' ≠ id) :
    (l ++ [(id, o)]).find? (fun p => p.1 == id') = l.find? (fun p => p.1 == id') := by
  have hne : (id == id') = false := by
    simp [beq_eq_false_iff_ne]
    exact fun he => h he.symm
  induction l with
  | nil => simp [List.find?, hne]
  | cons q l ih =>
    by_cases hq : (q.1 == id') = true
    · rw [List.cons_append, List.find?_cons_of_pos _ (by simp [hq]),
        List.find?_cons_of_pos _ (by simp [hq])]
    · have hq' : (q.1 == id') = false := by
        cases hb : (q.1 == id') with
        | false => rfl
        | true => exact absurd hb hq
      rw [List.cons_append, List.find?_cons_of_neg _ (by simp [hq']),
        List.find?_cons_of_neg _ (by simp [hq'])]
      exact ih

/-- Read-your-writes: reading back the key just saved yields the record
just saved. -/
theorem Storage.get_order_save_self (σ : Storage) (id : String) (o : Order) :
    (σ.save_order id o).get_order id = some o := by
  unfold Storage.save_order Storage.get_order
  by_cases h : σ.orders.any (fun p => p.1 == id) = true
  · simp only [h, if_true]
    rw [find?_map_replace σ.orders id o h]
    rfl
  · have h' : σ.orders.any (fun p => p.1 == id) = false := by
      cases hb : σ.orders.any (fun p => p.1 == id) with
      | false => rfl
      | true => exact absurd hb h
    simp only [h', Bool.false_eq_true, if_false]
    rw [find?_append_key σ.orders id o h']
    rfl

/-- Saving under one key does not change what is read under another. -/
theorem Storage.get_order_save_other (σ : Storage) (id id' : String) (o : Order)
    (h : id' ≠ id) :
    (σ.save_order id o).get_order id' = σ.get_order id' := by
  unfold Storage.save_order Storage.get_order
  by_cases ha : σ.orders.any (fun p => p.1 == id) = true
  · simp only [ha, if_true]
    rw [find?_map_replace_other σ.orders id id' o h]
  · have ha' : σ.orders.any (fun p => p.1 == id) = false := by
      cases hb : σ.orders.any (fun p => p.1 == id) with
      | false => rfl
      | true => exact absurd hb ha
    simp only [ha', Bool.false_eq_true, if_false]
    rw [find?_append_other σ.orders id id' o h]

/-- Every entry of the storage after a save is either the saved entry or
an entry that was already there. -/
theorem Storage.mem_save_order (σ : Storage) (id : String) (o : Order) (p : String × Order)
    (h : p ∈ (σ.save_order id o).orders) : p = (id, o) ∨ p ∈ σ.orders := by
  unfold Storage.save_order at h
  by_cases ha : σ.orders.any (fun q => q.1 == id) = true
  · simp only [ha, if_true] at h
    obtain ⟨q, hq, hfq⟩ := List.mem_map.mp h
    by_cases hqi : (q.1 == id) = true
    · left
      rw [← hfq]
      simp [hqi]
    · right
      have hqi' : (q.1 == id) = false := by
        cases hb : (q.1 == id) with
        | false => rfl
        | true => exact absurd hb hqi
      rw [← hfq]
      simp only [hqi', Bool.false_eq_true, if_false]
      exact hq
  · have ha' : σ.orders.any (fun q => q.1 == id) = false := by
      cases hb : σ.orders.any (fun q => q.1 == id) with
      | false => rfl
      | true => exact absurd hb ha
    simp only [ha', Bool.false_eq_true, if_false] at h
    rcases List.mem_append.mp h with h | h
    · right; exact h
    · left; simpa using h

/-- A successful lookup names an entry of the storage, stored under the
looked-up key. -/
theorem Storage.get_order_some_mem (σ : Storage) (id : String) (o : Order)
    (h : σ.get_order id = some o) : (id, o) ∈ σ.orders := by
  unfold Storage.get_order at h
  cases hf : σ.orders.find? (fun p => p.1 == id) with
  | none => rw [hf] at h; simp at h
  | some q =>
    rw [hf] at h
    simp only [Option.map_some'] at h
    have hp := List.find?_some hf
    have hm : q ∈ σ.orders := List.mem_of_find?_eq_some hf
    have hp1 : q.1 = id := by simpa using hp
    have hq : q = (id, o) := by
      cases q with
      | mk a b =>
        simp only at hp1 h
        rw [hp1, Option.some.inj h]
    rw [← hq]
    exact hm

/-- A concrete stored order, used to instantiate the theorems (the
scenario of spec section 8). -/
def sampleOrder : Order :=
  { order_id := "O1", item_name := "Pen", quantity := 3, customer_id := "C1",
    status := "pending" }

/-- A concrete one-order storage, used to instantiate the theorems. -/
def sampleStorage : Storage := ⟨[("O1", sampleOrder)]⟩

/-- The result claim C3 asserts for `add_order`, written from the spec's
words (section 4.1): fail-fast, first violation wins, in the order
duplicate order_id → quantity positivity → order_id non-empty →
item_name non-empty → customer_id non-empty → status membership when
status is truthy. -/
def add_order_claimed_result (σ : Storage) (order_id item_name : String) (quantity : Int)
    (customer_id status : String) : Except Err Unit :=
  if (σ.get_order order_id).isSome then Except.error (Err.duplicateOrder order_id)
  else if quantity ≤ 0 then Except.error Err.invalidQuantity
  else if order_id = "" then Except.error (Err.emptyField "order_id")
  else if item_name = "" then Except.error (Err.emptyField "item_name")
  else if customer_id = "" then Except.error (Err.emptyField "customer_id")
  else if status ≠ "" ∧ status ∉ validStatuses then Except.error Err.invalidStatus
  else Except.ok ()

/-- The result claim C5 asserts for `update_order_status`, written from
the spec's words (section 4.1): order_id non-empty → new_status
membership when truthy → only then the storage lookup, a missing order
failing with the not-found error. -/
def update_status_claimed_result (σ : Storage) (order_id new_status : String) :
    Except Err Unit :=
  if order_id = "" then Except.error (Err.emptyField "order_id")
  else if new_status ≠ "" ∧ new_status ∉ validStatuses then Except.error Err.invalidStatus
  else if σ.get_order order_id = none then Except.error (Err.orderNotFound order_id)
  else Except.ok ()

/-- C3: `add_order` validates fail-fast in exactly the claimed order —
its result coincides with the claimed first-violation chain (duplicate →
quantity → order_id → item_name → customer_id → status) on every input
and storage state; in particular an order_id already in storage yields
the duplicate-order error regardless of the validity of the other
fields. -/
theorem add_order_validation_order (σ : Storage) (oid iname cid st : String) (q : Int) :
    (add_order σ oid iname q cid st).1 = add_order_claimed_result σ oid iname q cid st ∧
    ((σ.get_order oid).isSome →
      (add_order σ oid iname q cid st).1 = Except.error (Err.duplicateOrder oid)) := by
  constructor
  · unfold add_order add_order_claimed_result
    split_ifs <;> rfl
  · intro h
    unfold add_order
    rw [if_pos h]

/-- Witness for C3 at a concrete input: a duplicate order_id wins even
when quantity, item_name, customer_id and status are all invalid too. -/
theorem add_order_validation_order_witness :
    (add_order sampleStorage "O1" "" (-5) "" "bogus").1 =
      Except.error (Err.duplicateOrder "O1") :=
  (add_order_validation_order sampleStorage "O1" "" "" "bogus" (-5)).2 (by decide)

/-- C5: `update_order_status` validates in exactly the claimed order —
its result coincides with the claimed chain (order_id non-empty →
new_status membership when truthy → storage lookup) on every input and
storage state; in particular, for every storage state, a non-empty
order_id with a truthy new_status outside the enumeration yields the
invalid-status error, never the not-found error. -/
theorem update_order_status_validation_order (σ : Storage) (oid st : String) :
    (update_order_status σ oid st).1 = update_status_claimed_result σ oid st ∧
    (oid ≠ "" → st ≠ "" → st ∉ validStatuses →
      (update_order_status σ oid st).1 = Except.error Err.invalidStatus) := by
  constructor
  · unfold update_order_status update_status_claimed_result
    by_cases h1 : oid = ""
    · rw [if_pos h1, if_pos h1]
    · rw [if_neg h1, if_neg h1]
      by_cases h2 : st ≠ "" ∧ st ∉ validStatuses
      · rw [if_pos h2, if_pos h2]
      · rw [if_neg h2, if_neg h2]
        unfold get_order_by_id
        rw [if_neg h1]
        cases hg : σ.get_order oid with
        | none => rw [if_pos rfl]
        | some o => rw [if_neg (by simp)]
  · intro h1 h2 h3
    unfold update_order_status
    rw [if_neg h1, if_pos ⟨h2, h3⟩]

/-- Witness for C5 at a concrete input: on the empty storage (where
"O9" is certainly absent) an invalid new_status yields the
invalid-status error, not the not-found error. -/
theorem update_order_status_validation_order_witness :
    (update_order_status emptyStorage "O9" "bogus").1 = Except.error Err.invalidStatus :=
  (update_order_status_validation_order emptyStorage "O9" "bogus").2
    (by decide) (by decide) (by decide)

/-- C2: on every valid input — order_id non-empty and not in storage,
item_name non-empty, quantity ≥ 1, customer_id non-empty, status either
falsy or in the enumeration — `add_order` succeeds and a subsequent
`get_order_by_id` on the same id returns exactly the five-field record,
with the given status when it was truthy and `"pending"` when it was
falsy (absence is the Python default `"pending"`, subsumed by the truthy
case). -/
theorem add_order_then_get (σ : Storage) (oid iname cid st : String) (q : Int)
    (hoid : oid ≠ "") (hdup : σ.get_order oid = none) (hiname : iname ≠ "")
    (hq : 1 ≤ q) (hcid : cid ≠ "") (hst : st = "" ∨ st ∈ validStatuses) :
    (add_order σ oid iname q cid st).1 = Except.ok () ∧
    (get_order_by_id (add_order σ oid iname q cid st).2 oid).1 =
      Except.ok (some
        { order_id := oid, item_name := iname, quantity := q,
          customer_id := cid, status := if st = "" then "pending" else st }) := by
  have hq' : ¬ q ≤ 0 := by omega
  have hst' : ¬(st ≠ "" ∧ st ∉ validStatuses) := by
    rcases hst with h | h
    · exact fun hc => hc.1 h
    · exact fun hc => hc.2 h
  unfold add_order
  rw [if_neg (by simp [hdup]), if_neg hq', if_neg hoid, if_neg hiname, if_neg hcid,
    if_neg hst']
  refine ⟨rfl, ?_⟩
  unfold get_order_by_id
  rw [if_neg hoid, Storage.get_order_save_self]

/-- Witness for C2 at a concrete input, with a falsy status defaulting
to pending (the scenario of spec section 8). -/
theorem add_order_then_get_witness :
    (add_order emptyStorage "O1" "Pen" 3 "C1" "").1 = Except.ok () ∧
    (get_order_by_id (add_order emptyStorage "O1" "Pen" 3 "C1" "").2 "O1").1 =
      Except.ok (some
        { order_id := "O1", item_name := "Pen", quantity := 3,
          customer_id := "C1", status := "pending" }) := by
  have h := add_order_then_get emptyStorage "O1" "Pen" "C1" "" 3
    (by decide) (by decide) (by decide) (by decide) (by decide) (Or.inl rfl)
  simpa using h

/-- C4: when `update_order_status` succeeds on an existing order with a
valid new status, only the status field changes — the new state is
exactly the old one with the record re-saved under the same key through
the same `save_order` used by `add_order`, and a subsequent
`get_order_by_id` returns the record with the new status and the other
four fields unchanged. -/
theorem update_order_status_frame (σ : Storage) (oid st : String) (o : Order)
    (hoid : oid ≠ "") (hst : st ∈ validStatuses) (hget : σ.get_order oid = some o) :
    (update_order_status σ oid st).1 = Except.ok () ∧
    (update_order_status σ oid st).2 = σ.save_order oid { o with status := st } ∧
    (get_order_by_id (update_order_status σ oid st).2 oid).1 =
      Except.ok (some
        { order_id := o.order_id, item_name := o.item_name,
          quantity := o.quantity, customer_id := o.customer_id, status := st }) := by
  have hst' : ¬(st ≠ "" ∧ st ∉ validStatuses) := fun hc => hc.2 hst
  unfold update_order_status
  rw [if_neg hoid, if_neg hst']
  unfold get_order_by_id
  rw [if_neg hoid, hget]
  refine ⟨rfl, rfl, ?_⟩
  rw [if_neg hoid, Storage.get_order_save_self]

/-- Witness for C4 at a concrete input: shipping the sample order keeps
its other four fields. -/
theorem update_order_status_frame_witness :
    (update_order_status sampleStorage "O1" "shipped").1 = Except.ok () ∧
    (update_order_status sampleStorage "O1" "shipped").2 =
      sampleStorage.save_order "O1" { sampleOrder with status := "shipped" } ∧
    (get_order_by_id (update_order_status sampleStorage "O1" "shipped").2 "O1").1 =
      Except.ok (some
        { order_id := "O1", item_name := "Pen", quantity := 3,
          customer_id := "C1", status := "shipped" }) :=
  update_order_status_frame sampleStorage "O1" "shipped" sampleOrder
    (by decide) (by decide) (by decide)

/-- C8: `get_order_by_id` raises the empty-field error exactly when the
order_id is falsy; on every non-empty order_id it never raises but
returns `storage.get_order`'s answer unchanged — the stored record when
present, the absent sentinel (`none`) when not — and never touches the
state. -/
theorem get_order_by_id_spec (σ : Storage) (oid : String) :
    ((get_order_by_id σ oid).1 = Except.error (Err.emptyField "order_id") ↔ oid = "") ∧
    (oid ≠ "" → (get_order_by_id σ oid).1 = Except.ok (σ.get_order oid)) ∧
    (get_order_by_id σ oid).2 = σ := by
  unfold get_order_by_id
  by_cases h : oid = ""
  · rw [if_pos h]
    exact ⟨⟨fun _ => h, fun _ => rfl⟩, fun hn => absurd h hn, rfl⟩
  · rw [if_neg h]
    refine ⟨⟨fun hc => ?_, fun hc => absurd hc h⟩, fun _ => rfl, rfl⟩
    exact absurd hc (by simp)

/-- Witness for C8 at concrete inputs: a present id returns its record,
an absent id returns the sentinel, neither is an error. -/
theorem get_order_by_id_spec_witness :
    (get_order_by_id sampleStorage "O1").1 = Except.ok (some sampleOrder) ∧
    (get_order_by_id sampleStorage "O9").1 = Except.ok none := by
  constructor
  · rw [(get_order_by_id_spec sampleStorage "O1").2.1 (by decide)]
    rfl
  · rw [(get_order_by_id_spec sampleStorage "O9").2.1 (by decide)]
    rfl

/-- C9 (implicit): a falsy new_status passes the truthy-guarded
validation of `update_order_status`, so on an existing order it raises
nothing; the stored status is overwritten with the falsy value (no
defaulting, unlike `add_order`) and the record is persisted. -/
theorem update_order_status_falsy (σ : Storage) (oid : String) (o : Order)
    (hoid : oid ≠ "") (hget : σ.get_order oid = some o) :
    (update_order_status σ oid "").1 = Except.ok () ∧
    (update_order_status σ oid "").2 = σ.save_order oid { o with status := "" } ∧
    (update_order_status σ oid "").2.get_order oid = some { o with status := "" } := by
  have hst : ¬(("" : String) ≠ "" ∧ ("" : String) ∉ validStatuses) := fun hc => hc.1 rfl
  unfold update_order_status
  rw [if_neg hoid, if_neg hst]
  unfold get_order_by_id
  rw [if_neg hoid, hget]
  exact ⟨rfl, rfl, Storage.get_order_save_self σ oid { o with status := "" }⟩

/-- Witness for C9 at a concrete input: updating the sample order with
the empty string succeeds and stores the empty status. -/
theorem update_order_status_falsy_witness :
    (update_order_status sampleStorage "O1" "").1 = Except.ok () ∧
    (update_order_status sampleStorage "O1" "").2 =
      sampleStorage.save_order "O1" { sampleOrder with status := "" } ∧
    (update_order_status sampleStorage "O1" "").2.get_order "O1" =
      some { sampleOrder with status := "" } :=
  update_order_status_falsy sampleStorage "O1" sampleOrder (by decide) (by decide)

/-- C6: `list_orders_by_status` errors on an empty status, errors on a
truthy status outside the enumeration, and otherwise returns a list
containing exactly the stored orders whose status equals the argument —
every returned order matches and every stored matching order is
returned — in particular the empty list on empty storage. -/
theorem list_orders_by_status_spec (σ : Storage) (st : String) :
    (st = "" → (list_orders_by_status σ st).1 = Except.error (Err.emptyField "status")) ∧
    (st ≠ "" → st ∉ validStatuses →
      (list_orders_by_status σ st).1 = Except.error Err.invalidStatus) ∧
    (st ∈ validStatuses →
      ∃ l, (list_orders_by_status σ st).1 = Except.ok l ∧
        (∀ o, o ∈ l ↔ o ∈ σ.orders.map Prod.snd ∧ o.status = st) ∧
        (σ.orders = [] → l = [])) := by
  refine ⟨fun h => ?_, fun h1 h2 => ?_, fun h => ?_⟩
  · unfold list_orders_by_status
    rw [if_pos h]
  · unfold list_orders_by_status
    rw [if_neg h1, if_pos h2]
  · have hne : st ≠ "" := by
      intro he
      rw [he] at h
      exact absurd h (by decide)
    unfold list_orders_by_status
    rw [if_neg hne, if_neg (not_not_intro h)]
    refine ⟨(σ.get_all_orders.map Prod.snd).filter (fun o => o.status == st), rfl,
      fun o => ?_, fun he => ?_⟩
    · unfold Storage.get_all_orders
      rw [List.mem_filter]
      constructor
      · rintro ⟨hm, hb⟩
        exact ⟨hm, by simpa using hb⟩
      · rintro ⟨hm, hb⟩
        exact ⟨hm, by simpa using hb⟩
    · unfold Storage.get_all_orders
      rw [he]
      rfl

/-- Witness for C6 at a concrete input: filtering the one-order sample
storage by a valid status. -/
theorem list_orders_by_status_spec_witness :
    ∃ l, (list_orders_by_status sampleStorage "shipped").1 = Except.ok l ∧
      (∀ o, o ∈ l ↔ o ∈ sampleStorage.orders.map Prod.snd ∧ o.status = "shipped") ∧
      (sampleStorage.orders = [] → l = []) :=
  (list_orders_by_status_spec sampleStorage "shipped").2.2 (by decide)

/-- C10 (implicit): error atomicity — whenever any of the four
operations returns an error, the storage state it leaves behind is
exactly the one it was given (no save was performed). -/
theorem tracker_ops_atomic (σ : Storage) (oid iname cid st oid2 nst lst : String)
    (q : Int) :
    (∀ e, (add_order σ oid iname q cid st).1 = Except.error e →
      (add_order σ oid iname q cid st).2 = σ) ∧
    (∀ e, (get_order_by_id σ oid2).1 = Except.error e → (get_order_by_id σ oid2).2 = σ) ∧
    (∀ e, (update_order_status σ oid2 nst).1 = Except.error e →
      (update_order_status σ oid2 nst).2 = σ) ∧
    (∀ e, (list_orders_by_status σ lst).1 = Except.error e →
      (list_orders_by_status σ lst).2 = σ) := by
  refine ⟨fun e he => ?_, fun e he => ?_, fun e he => ?_, fun e he => ?_⟩
  · unfold add_order at he ⊢
    split_ifs at he ⊢ <;> rfl
  · unfold get_order_by_id
    split_ifs <;> rfl
  · unfold update_order_status at he ⊢
    split_ifs at he ⊢ with h1 h2
    · rfl
    · rfl
    · unfold get_order_by_id at he ⊢
      rw [if_neg h1] at he ⊢
      cases hg : σ.get_order oid2 with
      | none => rfl
      | some o =>
        rw [hg] at he
        exact Except.noConfusion he
  · unfold list_orders_by_status
    split_ifs <;> rfl

/-- Witness for C10 at a concrete input: a duplicate add against the
sample storage leaves it untouched. -/
theorem tracker_ops_atomic_witness :
    (add_order sampleStorage "O1" "Pen" 3 "C1" "pending").2 = sampleStorage :=
  (tracker_ops_atomic sampleStorage "O1" "Pen" "C1" "pending" "O1" "shipped"
    "pending" 3).1 (Err.duplicateOrder "O1") (by rfl)

/-- The two possible state outcomes of `add_order`: unchanged on any
validation error, or a save of the validated five-field record (whose
quantity then is positive). -/
theorem add_order_state (σ : Storage) (oid iname : String) (q : Int) (cid st : String) :
    (add_order σ oid iname q cid st).2 = σ ∨
    (0 < q ∧ (add_order σ oid iname q cid st).2 = σ.save_order oid
      { order_id := oid, item_name := iname, quantity := q, customer_id := cid,
        status := if st = "" then "pending" else st }) := by
  unfold add_order
  split_ifs <;>
    first
      | exact Or.inl rfl
      | exact Or.inr ⟨by omega, rfl⟩

/-- The two possible state outcomes of `update_order_status`: unchanged
on any error, or a re-save of a stored record with only its status
replaced. -/
theorem update_order_status_state (σ : Storage) (oid st : String) :
    (update_order_status σ oid st).2 = σ ∨
    ∃ o, σ.get_order oid = some o ∧
      (update_order_status σ oid st).2 = σ.save_order oid { o with status := st } := by
  unfold update_order_status
  split_ifs with h1 h2
  · exact Or.inl rfl
  · exact Or.inl rfl
  · unfold get_order_by_id
    rw [if_neg h1]
    cases hg : σ.get_order oid with
    | none => exact Or.inl rfl
    | some o => exact Or.inr ⟨o, rfl, rfl⟩

/-- Every tracker mutation preserves the lower bound on stored
quantities. -/
theorem applyOp_preserves_quantity (σ : Storage) (op : TrackerOp)
    (h : ∀ p ∈ σ.orders, 1 ≤ p.2.quantity) :
    ∀ p ∈ (applyOp σ op).orders, 1 ≤ p.2.quantity := by
  cases op with
  | add oid iname q cid st =>
    show ∀ p ∈ (add_order σ oid iname q cid st).2.orders, 1 ≤ p.2.quantity
    rcases add_order_state σ oid iname q cid st with hs | ⟨hq, hs⟩
    · rw [hs]
      exact h
    · rw [hs]
      intro p hp
      rcases Storage.mem_save_order _ _ _ p hp with hp' | hp'
      · rw [hp']
        show (1 : Int) ≤ q
        omega
      · exact h p hp'
  | update oid st =>
    show ∀ p ∈ (update_order_status σ oid st).2.orders, 1 ≤ p.2.quantity
    rcases update_order_status_state σ oid st with hs | ⟨o, hg, hs⟩
    · rw [hs]
      exact h
    · rw [hs]
      intro p hp
      rcases Storage.mem_save_order _ _ _ p hp with hp' | hp'
      · rw [hp']
        show (1 : Int) ≤ o.quantity
        exact h (oid, o) (Storage.get_order_some_mem σ oid o hg)
      · exact h p hp'

/-- C7: after every sequence of tracker operations starting from the
empty storage, every stored order's quantity is at least 1. -/
theorem stored_quantity_invariant (ops : List TrackerOp) :
    ∀ p ∈ (runOps emptyStorage ops).orders, 1 ≤ p.2.quantity := by
  have general : ∀ (l : List TrackerOp) (σ : Storage),
      (∀ p ∈ σ.orders, 1 ≤ p.2.quantity) →
      ∀ p ∈ (runOps σ l).orders, 1 ≤ p.2.quantity := by
    intro l
    induction l with
    | nil => intro σ h; exact h
    | cons op l ih =>
      intro σ h
      exact ih (applyOp σ op) (applyOp_preserves_quantity σ op h)
  refine general ops emptyStorage ?_
  intro p hp
  simp [emptyStorage] at hp

/-- Witness for C7 at a concrete input: the order stored by one add
operation is a member of the resulting storage and has quantity ≥ 1. -/
theorem stored_quantity_invariant_witness :
    ("O1", sampleOrder) ∈ (runOps emptyStorage
        [TrackerOp.add "O1" "Pen" 3 "C1" "pending"]).orders ∧
    (1 : Int) ≤ (("O1", sampleOrder) : String × Order).2.quantity :=
  ⟨by decide, stored_quantity_invariant [TrackerOp.add "O1" "Pen" 3 "C1" "pending"]
    ("O1", sampleOrder) (by decide)⟩

/-- C1: refuted on the code — starting from the empty storage, adding
order "O1" and then calling `update_order_status` with the falsy
new_status `""` (which the truthy-guarded check lets through and which
is stored without defaulting) leaves a stored order whose status is the
empty string, outside the closed enumeration: the claimed status
invariant does not hold over all tracker-operation sequences. -/
theorem stored_status_invariant_fails :
    ∃ o, (runOps emptyStorage
        [TrackerOp.add "O1" "Pen" 3 "C1" "pending",
         TrackerOp.update "O1" ""]).get_order "O1" = some o ∧
      o.status = "" ∧ o.status ∉ validStatuses := by
  refine ⟨{ order_id := "O1", item_name := "Pen", quantity := 3, customer_id := "C1",
            status := "" }, ?_, rfl, by decide⟩
  rfl

end OrderTrackerSpec
